import Mathlib

/-!
Shallow embedding of the Academic Resource Hub backend
(src/backend/middleware/auth.js: the auth middleware and the Express
server concatenated there) and the client-side filtering of
src/frontend/src/pages/Browse.jsx, with the multer upload collaborator
of src/unnamed/part_004.

Database tables are finite lists of rows; `pool.query` SELECTs become
`List.find?` over those lists (first matching row, as `result.rows[0]`).
JavaScript truthiness and coercions are modelled explicitly by the
`js...` helpers below.
-/

namespace ARH

/-- JS truthiness of an optional string field (`undefined`/`null` and the
empty string are falsy; every other string, including "0", is truthy). -/
def jsTruthyStrO : Option String → Bool
  | none => false
  | some s => s ≠ ""

/-- JS truthiness of a plain string (the empty string is falsy). -/
def jsTruthyStr (s : String) : Bool := s ≠ ""

/-- JS truthiness of an optional number (`undefined`/`null` and 0 are falsy). -/
def jsTruthyIntO : Option Int → Bool
  | none => false
  | some n => n ≠ 0

/-- x || d for an optional string `x` (falsy `x`, i.e. absent or empty,
yields the default). Models `data.user.role || "student"`. -/
def jsOrStr (x : Option String) (d : String) : String :=
  match x with
  | none => d
  | some s => if s = "" then d else s

/-- parseInt on a string: an optional sign followed by leading decimal
digits; `none` stands for `NaN` (no digits to parse). -/
def jsParseInt (s : String) : Option Int :=
  let core (t : List Char) : Option Nat :=
    let ds := t.takeWhile Char.isDigit
    if ds.isEmpty then none
    else some (ds.foldl (fun a c => a * 10 + (c.toNat - 48)) 0)
  match s.toList with
  | '-' :: t => (core t).map (fun n => -(n : Int))
  | '+' :: t => (core t).map (fun n => (n : Int))
  | t => (core t).map (fun n => (n : Int))

/-- parseInt applied to an optional field (`parseInt(undefined)` is NaN). -/
def jsParseIntO (s : Option String) : Option Int :=
  match s with
  | none => none
  | some s => jsParseInt s

/-- Number(s) for the strings the Browse page feeds it: the empty string
is 0, a decimal numeral is its value, anything else is NaN (`none`). -/
def jsNumber (s : String) : Option Int :=
  if s = "" then some 0 else jsParseInt s

/-- Split a character list at every occurrence of `sep` (the separator is
dropped; adjacent separators yield empty pieces). -/
def splitOnChar (sep : Char) : List Char → List (List Char)
  | [] => [[]]
  | c :: t =>
    let r := splitOnChar sep t
    if c = sep then [] :: r
    else
      match r with
      | [] => [[c]]
      | h :: t2 => (c :: h) :: t2

/-- Element 1 of a piece list, the empty string when there is none
(`split(" ")[1]`). -/
def jsIndex1 : List String → String
  | _ :: x :: _ => x
  | _ => ""

/-- s.split(" ") of JS: the pieces of `s` between single spaces. -/
def jsSplitSpace (s : String) : List String :=
  (splitOnChar ' ' s.toList).map (fun cs => String.mk cs)

/-- s.startsWith(pre) of JS. -/
def jsStartsWith (s pre : String) : Bool :=
  pre.toList.isPrefixOf s.toList

/-! ## Data model: the relational tables the server queries -/
structure SubjectRow where
  id : String
  code : String
  name : String
  deriving DecidableEq, Repr

structure AcademicYearRow where
  id : String
  start_year : Int
  end_year : Int
  deriving DecidableEq, Repr

structure SubjectOfferingRow where
  id : String
  subject_id : String
  academic_year_id : String
  faculty_id : String
  deriving DecidableEq, Repr

structure UnitRow where
  id : String
  subject_offering_id : String
  unit_number : Int
  deriving DecidableEq, Repr

structure UserRow where
  id : String
  role : String
  full_name : String
  deriving DecidableEq, Repr

structure ResourceRow where
  id : String
  subject_id : String
  subject_offering_id : Option String
  unit_id : Option String
  title : String
  description : String
  resource_type : String
  external_url : Option String
  storage_path : Option String
  contributor_id : String
  is_deleted : Bool
  created_at : Nat
  deriving DecidableEq, Repr

structure DB where
  subjects : List SubjectRow
  academic_years : List AcademicYearRow
  subject_offerings : List SubjectOfferingRow
  units : List UnitRow
  users : List UserRow
  resources : List ResourceRow
  deriving DecidableEq, Repr

/-! ## Helper functions (entity resolution, permissions, storage path) -/
/-- resolveSubject: SELECT id, name FROM subjects WHERE code = $1;
throws when no row matches. -/
def resolveSubject (db : DB) (subjectCode : String) : Except String SubjectRow :=
  match db.subjects.find? (fun s => s.code = subjectCode) with
  | none => .error ("Subject with code " ++ subjectCode ++ " not found")
  | some row => .ok row

/-- resolveAcademicYear: SELECT id FROM academic_years WHERE
start_year = $1 AND end_year = $2; the arguments come through `parseInt`,
so `none` (NaN) matches no row. -/
def resolveAcademicYear (db : DB) (startYear endYear : Option Int) : Except String String :=
  match db.academic_years.find?
      (fun ay => some ay.start_year = startYear ∧ some ay.end_year = endYear) with
  | none => .error "Academic year not found"
  | some row => .ok row.id

/-- resolveSubjectOffering: SELECT id, faculty_id FROM subject_offerings
WHERE subject_id = $1 AND academic_year_id = $2. -/
def resolveSubjectOffering (db : DB) (subjectId academicYearId : String) :
    Except String SubjectOfferingRow :=
  match db.subject_offerings.find?
      (fun so => so.subject_id = subjectId ∧ so.academic_year_id = academicYearId) with
  | none => .error "Subject offering not found for the given subject and academic year"
  | some row => .ok row

/-- resolveUnit: SELECT id FROM units WHERE subject_offering_id = $1
AND unit_number = $2; the unit number comes through `parseInt`. -/
def resolveUnit (db : DB) (subjectOfferingId : String) (unitNumber : Option Int) :
    Except String String :=
  match db.units.find?
      (fun u => u.subject_offering_id = subjectOfferingId ∧ some u.unit_number = unitNumber) with
  | none => .error "Unit not found for this subject offering"
  | some row => .ok row.id

/-- The four lookups of the resolution chain, used to record which lookups
a request actually performed. -/
inductive Step where
  | subject
  | year
  | offering
  | unit
  deriving DecidableEq, Repr

/-- Output of a successful resolution chain. -/
structure Resolved where
  subject : SubjectRow
  academicYearId : String
  offering : SubjectOfferingRow
  unitId : Option String
  deriving DecidableEq, Repr

/-- The entity-resolution sequence shared verbatim by the bodies of
POST /resources and POST /resources/file: resolve subject, then academic
year, then offering, then (only when `unit_number` is truthy) the unit,
stopping at the first lookup that throws. The first component records, in
order, the lookups that were performed. -/
def resolveChain (db : DB) (subject_code : String) (start_year end_year : String)
    (unit_number : Option String) : List Step × Except String Resolved :=
  match resolveSubject db subject_code with
  | .error e => ([Step.subject], .error e)
  | .ok subj =>
    match resolveAcademicYear db (jsParseInt start_year) (jsParseInt end_year) with
    | .error e => ([Step.subject, Step.year], .error e)
    | .ok ayId =>
      match resolveSubjectOffering db subj.id ayId with
      | .error e => ([Step.subject, Step.year, Step.offering], .error e)
      | .ok off =>
        if jsTruthyStrO unit_number then
          match resolveUnit db off.id (jsParseIntO unit_number) with
          | .error e => ([Step.subject, Step.year, Step.offering, Step.unit], .error e)
          | .ok uid =>
            ([Step.subject, Step.year, Step.offering, Step.unit],
             .ok ⟨subj, ayId, off, some uid⟩)
        else
          ([Step.subject, Step.year, Step.offering], .ok ⟨subj, ayId, off, none⟩)

/-- isAdmin: SELECT role FROM users WHERE id = $1, then
rows.length > 0 && rows[0].role === admin. -/
def isAdmin (db : DB) (userId : String) : Bool :=
  match db.users.find? (fun u => u.id = userId) with
  | none => false
  | some u => u.role = "admin"

/-- isResourceOwner: SELECT contributor_id FROM resources WHERE id = $1,
then rows.length > 0 && rows[0].contributor_id === userId. -/
def isResourceOwner (db : DB) (resourceId userId : String) : Bool :=
  match db.resources.find? (fun r => r.id = resourceId) with
  | none => false
  | some r => r.contributor_id = userId

/-- The mutation gate used identically by PUT and DELETE:
`userIsAdmin || userIsOwner`. -/
def canMutate (db : DB) (resourceId userId : String) : Bool :=
  isAdmin db userId || isResourceOwner db resourceId userId

/-- filename.replace(/[^a-zA-Z0-9._-]/g, _): every character outside
[A-Za-z0-9._-] is replaced one-for-one by an underscore. -/
def sanitizeFilename (filename : String) : String :=
  String.mk (filename.toList.map (fun c =>
    if c.isAlphanum ∨ c = '.' ∨ c = '_' ∨ c = '-' then c else '_'))

/-- generateStoragePath(subjectId, offeringId, unitId, filename); the
timestamp `Date.now()` is an explicit parameter. `unitId` is the JS
variable that is either null or a resolved id, tested for truthiness. -/
def generateStoragePath (subjectId offeringId : String) (unitId : Option String)
    (timestamp : Nat) (filename : String) : String :=
  let sanitizedFilename := sanitizeFilename filename
  if jsTruthyStrO unitId then
    subjectId ++ "/" ++ offeringId ++ "/" ++ unitId.getD "" ++ "/" ++
      toString timestamp ++ "-" ++ sanitizedFilename
  else
    subjectId ++ "/" ++ offeringId ++ "/" ++ toString timestamp ++ "-" ++ sanitizedFilename

/-! ## POST /resources (external link variant) -/
/-- The JSON body of POST /resources as the client sends it
(src/unnamed/part_002 includes a `resource_type` field; the handler
destructures only the fields below it and never reads `resource_type`). -/
structure CreateLinkBody where
  title : Option String
  description : Option String
  subject_code : Option String
  start_year : Option String
  end_year : Option String
  unit_number : Option String
  external_url : Option String
  resource_type : Option String
  deriving DecidableEq, Repr

inductive PostResult where
  | created (row : ResourceRow)
  | badRequest (msg : String)
  deriving DecidableEq, Repr

/-- The validation of POST /resources:
!title || !description || !subject_code || !start_year || !end_year ||
!external_url short-circuits to 400 (unit_number is optional). -/
def linkFieldsPresent (b : CreateLinkBody) : Prop :=
  jsTruthyStrO b.title ∧ jsTruthyStrO b.description ∧
  jsTruthyStrO b.subject_code ∧ jsTruthyStrO b.start_year ∧
  jsTruthyStrO b.end_year ∧ jsTruthyStrO b.external_url

instance (b : CreateLinkBody) : Decidable (linkFieldsPresent b) := by
  unfold linkFieldsPresent; infer_instance

/-- HTTP status the handler sends with each `PostResult`. -/
def PostResult.status : PostResult → Nat
  | .created _ => 201
  | .badRequest _ => 400

/-- POST /resources: validate required fields, BEGIN, run the resolution
chain, INSERT the row with resource_type the constant external_link,
COMMIT; any thrown error is caught, the transaction rolled back (the
returned DB is the input DB) and reported with status 400. `newId` stands
for gen_random_uuid(), `now` for the created_at default, and `insertErr`
for a database error thrown by the INSERT itself. -/
def postResources (db : DB) (body : CreateLinkBody) (userId : String)
    (newId : String) (now : Nat) (insertErr : Option String) : DB × PostResult :=
  if ¬ linkFieldsPresent body then
    (db, .badRequest "Missing required fields: title, description, subject_code, start_year, end_year, external_url")
  else
    match (resolveChain db (body.subject_code.getD "") (body.start_year.getD "")
        (body.end_year.getD "") body.unit_number).2 with
    | .error e => (db, .badRequest e)
    | .ok resolved =>
      match insertErr with
      | some e => (db, .badRequest e)
      | none =>
        let row : ResourceRow :=
          { id := newId
            subject_id := resolved.subject.id
            subject_offering_id := some resolved.offering.id
            unit_id := resolved.unitId
            title := body.title.getD ""
            description := body.description.getD ""
            resource_type := "external_link"
            external_url := body.external_url
            storage_path := none
            contributor_id := userId
            is_deleted := false
            created_at := now }
        ({ db with resources := db.resources ++ [row] }, .created row)

/-! ## POST /resources/file (Busboy variant) -/
/-- The file part Busboy collects: declared filename, declared MIME type,
and the concatenated payload bytes. -/
structure UploadedFile where
  filename : String
  mimeType : String
  data : List Nat
  deriving DecidableEq, Repr

/-- The multipart form of POST /resources/file: the text fields plus an
optional file part. -/
structure CreateFileForm where
  title : Option String
  description : Option String
  subject_code : Option String
  start_year : Option String
  end_year : Option String
  unit_number : Option String
  resource_type : Option String
  file : Option UploadedFile
  deriving DecidableEq, Repr

/-- The validation of POST /resources/file:
!title || !description || !subject_code || !start_year || !end_year
short-circuits to 400 before the file check. -/
def fileFieldsPresent (f : CreateFileForm) : Prop :=
  jsTruthyStrO f.title ∧ jsTruthyStrO f.description ∧
  jsTruthyStrO f.subject_code ∧ jsTruthyStrO f.start_year ∧
  jsTruthyStrO f.end_year

instance (f : CreateFileForm) : Decidable (fileFieldsPresent f) := by
  unfold fileFieldsPresent; infer_instance

/-- The storage bucket: a finite map from object path to payload. -/
abbrev Storage := List (String × List Nat)

/-- supabase.storage.from(resources).upload(path, data, \x7b upsert: false \x7d):
with upsert disabled an existing object at the path makes the upload fail
and leaves the bucket unchanged; `providerErr` stands for any other error
the storage provider returns. -/
def storageUpload (storage : Storage) (path : String) (data : List Nat)
    (providerErr : Option String) : Except String Storage :=
  match providerErr with
  | some e => .error e
  | none =>
    if storage.any (fun p => p.1 = path) then
      .error "The resource already exists"
    else
      .ok (storage ++ [(path, data)])

/-- POST /resources/file, the `finish` handler: validate fields, require a
file, BEGIN, run the resolution chain, compute the storage path, upload
(upsert: false), INSERT the row with resource_type the constant file,
COMMIT; every thrown error rolls the transaction back (the returned DB is
the input DB) and is reported with status 400. A failed step before the
upload also leaves the bucket unchanged. -/
def postResourcesFile (db : DB) (storage : Storage) (form : CreateFileForm)
    (userId : String) (newId : String) (now : Nat) (timestamp : Nat)
    (providerErr : Option String) (insertErr : Option String) :
    (DB × Storage) × PostResult :=
  if ¬ fileFieldsPresent form then
    ((db, storage), .badRequest "Missing required fields: title, description, subject_code, start_year, end_year")
  else
    match form.file with
    | none => ((db, storage), .badRequest "No file uploaded")
    | some file =>
      if file.filename = "" then ((db, storage), .badRequest "No file uploaded")
      else
      match (resolveChain db (form.subject_code.getD "") (form.start_year.getD "")
          (form.end_year.getD "") form.unit_number).2 with
      | .error e => ((db, storage), .badRequest e)
      | .ok resolved =>
        let storagePath := generateStoragePath resolved.subject.id resolved.offering.id
          resolved.unitId timestamp file.filename
        match storageUpload storage storagePath file.data providerErr with
        | .error e => ((db, storage), .badRequest ("File upload failed: " ++ e))
        | .ok storage2 =>
          match insertErr with
          | some e => ((db, storage2), .badRequest e)
          | none =>
            let row : ResourceRow :=
              { id := newId
                subject_id := resolved.subject.id
                subject_offering_id := some resolved.offering.id
                unit_id := resolved.unitId
                title := form.title.getD ""
                description := form.description.getD ""
                resource_type := "file"
                external_url := none
                storage_path := some storagePath
                contributor_id := userId
                is_deleted := false
                created_at := now }
            (({ db with resources := db.resources ++ [row] }, storage2), .created row)

/-! ## The multer upload collaborator (src/unnamed/part_004) -/
/-- multer fileFilter: reject any MIME type other than application/pdf. -/
def multerFileFilter (mimetype : String) : Except String Bool :=
  if mimetype ≠ "application/pdf" then .error "Only PDF files are allowed"
  else .ok true

/-- multer limits.fileSize: 10 * 1024 * 1024 bytes. -/
def multerFileSizeLimit : Nat := 10 * 1024 * 1024

/-! ## PUT /resources/:id and DELETE /resources/:id -/
inductive MutResult where
  | badRequest (msg : String)
  | forbidden (msg : String)
  | notFound (msg : String)
  | updated (row : ResourceRow)
  | deleted
  deriving DecidableEq, Repr

/-- HTTP status the handlers send with each `MutResult`. -/
def MutResult.status : MutResult → Nat
  | .badRequest _ => 400
  | .forbidden _ => 403
  | .notFound _ => 404
  | .updated _ => 200
  | .deleted => 200

/-- PUT /resources/:id: require at least one of title/description, check
isAdmin/isResourceOwner (403 when neither), then UPDATE the row with the
supplied fields, RETURNING *; zero updated rows is 404. The UPDATE has no
is_deleted condition, so it applies to soft-deleted rows too. -/
def putResource (db : DB) (rid : String) (userId : String)
    (title description : Option String) : DB × MutResult :=
  if ¬jsTruthyStrO title ∧ ¬jsTruthyStrO description then
    (db, .badRequest "At least one field (title or description) is required")
  else if ¬(isAdmin db userId ∨ isResourceOwner db rid userId) then
    (db, .forbidden "You do not have permission to update this resource")
  else
    match db.resources.find? (fun r => r.id = rid) with
    | none => (db, .notFound "Resource not found")
    | some r =>
      let upd (x : ResourceRow) : ResourceRow :=
        { x with
          title := if jsTruthyStrO title then title.getD "" else x.title
          description := if jsTruthyStrO description then description.getD "" else x.description }
      ({ db with resources := db.resources.map (fun x => if x.id = rid then upd x else x) },
       .updated (upd r))

/-- DELETE /resources/:id: check isAdmin/isResourceOwner (403 when
neither), then UPDATE resources SET is_deleted = true WHERE id = $1
RETURNING *; zero updated rows is 404. -/
def deleteResource (db : DB) (rid : String) (userId : String) : DB × MutResult :=
  if ¬(isAdmin db userId ∨ isResourceOwner db rid userId) then
    (db, .forbidden "You do not have permission to delete this resource")
  else
    match db.resources.find? (fun r => r.id = rid) with
    | none => (db, .notFound "Resource not found")
    | some _ =>
      ({ db with resources :=
          db.resources.map (fun x => if x.id = rid then { x with is_deleted := true } else x) },
       .deleted)

/-! ## GET /resources and GET /resources/latest -/
/-- One row of the SELECT of GET /resources: resources r JOIN subjects s,
LEFT JOIN subject_offerings so, LEFT JOIN academic_years ay, LEFT JOIN
units u, JOIN users usr. -/
structure JoinedRow where
  id : String
  title : String
  description : String
  resource_type : String
  external_url : Option String
  created_at : Nat
  subject_code : String
  subject_name : String
  start_year : Option Int
  end_year : Option Int
  unit_number : Option Int
  contributor_name : String
  deriving DecidableEq, Repr

/-- The join clauses of the query: the inner joins on subjects and users
drop the row when no match exists; the left joins yield nulls. -/
def joinRow (db : DB) (r : ResourceRow) : Option JoinedRow :=
  match db.subjects.find? (fun s => s.id = r.subject_id),
        db.users.find? (fun u => u.id = r.contributor_id) with
  | some s, some usr =>
    let so := r.subject_offering_id.bind
      (fun oid => db.subject_offerings.find? (fun x => x.id = oid))
    let ay := so.bind (fun o => db.academic_years.find? (fun x => x.id = o.academic_year_id))
    let un := r.unit_id.bind (fun uid => db.units.find? (fun x => x.id = uid))
    some { id := r.id
           title := r.title
           description := r.description
           resource_type := r.resource_type
           external_url := r.external_url
           created_at := r.created_at
           subject_code := s.code
           subject_name := s.name
           start_year := ay.map (fun x => x.start_year)
           end_year := ay.map (fun x => x.end_year)
           unit_number := un.map (fun x => x.unit_number)
           contributor_name := usr.full_name }
  | _, _ => none

/-- Descending creation-time order of ORDER BY r.created_at DESC. -/
def createdDesc (a b : JoinedRow) : Prop := b.created_at ≤ a.created_at

instance : DecidableRel createdDesc := fun _ _ => Nat.decLe _ _

instance : IsTotal JoinedRow createdDesc :=
  ⟨fun a b => (Nat.le_total b.created_at a.created_at).imp id id⟩

instance : IsTrans JoinedRow createdDesc :=
  ⟨fun _ _ _ hab hbc => Nat.le_trans hbc hab⟩

/-- GET /resources: all rows with is_deleted = false, joined, ordered by
created_at descending. -/
def getResources (db : DB) : List JoinedRow :=
  List.insertionSort createdDesc
    ((db.resources.filter (fun r => r.is_deleted = false)).filterMap (joinRow db))

/-- GET /resources/latest: the source repeats the query of GET /resources
verbatim with LIMIT 3 appended, so the result is the first 3 rows of the
same ordered list. -/
def getLatestResources (db : DB) : List JoinedRow :=
  (getResources db).take 3

/-! ## The identity-resolving middleware (authMiddleware) -/
/-- The user object the provider returns inside data.user. -/
structure ProviderUser where
  id : String
  email : String
  role : Option String
  deriving DecidableEq, Repr

/-- Outcome of supabase.auth.getUser(token): either the call throws, or it
returns \x7b data: \x7b user \x7d, error \x7d. -/
inductive ProviderResult where
  | thrown (msg : String)
  | result (error : Option String) (user : Option ProviderUser)
  deriving DecidableEq, Repr

/-- The \x7bid, email, role\x7d object attached to the request. -/
structure AuthedUser where
  id : String
  email : String
  role : String
  deriving DecidableEq, Repr

inductive AuthOutcome where
  | unauthorized (msg : String)
  | success (user : AuthedUser)
  deriving DecidableEq, Repr

/-- HTTP status of each middleware outcome (next() leaves the status to
the downstream handler; success carries no status of its own). -/
def AuthOutcome.status : AuthOutcome → Option Nat
  | .unauthorized _ => some 401
  | .success _ => none

/-- authMiddleware: reject a missing header or one without the Bearer
prefix with 401 before calling the provider; call
supabase.auth.getUser(token) on the rest; 401 when it errors, throws, or
returns no user; otherwise attach \x7bid, email, role: role || student\x7d.
The Bool records whether the provider was contacted. -/
def authMiddleware (authHeader : Option String)
    (getUser : String → ProviderResult) : Bool × AuthOutcome :=
  match authHeader with
  | none => (false, .unauthorized "Missing token")
  | some h =>
    if ¬ jsStartsWith h "Bearer " then (false, .unauthorized "Missing token")
    else
      let token := jsIndex1 (jsSplitSpace h)
      match getUser token with
      | .thrown _ => (true, .unauthorized "Invalid or missing token")
      | .result (some _) _ => (true, .unauthorized "Invalid token")
      | .result none none => (true, .unauthorized "Invalid token")
      | .result none (some u) =>
        (true, .success { id := u.id, email := u.email, role := jsOrStr u.role "student" })

/-! ## Client-side filtering (src/frontend/src/pages/Browse.jsx) -/
/-- The fields of a fetched resource the Browse filters read. -/
structure BrowseResource where
  course_name : String
  unit_id : Int
  resource_type : String
  academic_year : Int
  deriving DecidableEq, Repr

/-- filteredResources: the four chained Array.filter calls. An empty
course selection, a null/0 unit selection, and a type/year value of
"all" each pass every resource; the year filter compares against
Number(yearFilter). -/
def filteredResources (resources : List BrowseResource) (selectedCourse : String)
    (selectedUnit : Option Int) (typeFilter yearFilter : String) : List BrowseResource :=
  ((((resources.filter
      (fun r => ¬ jsTruthyStr selectedCourse ∨ r.course_name = selectedCourse)).filter
      (fun r => ¬ jsTruthyIntO selectedUnit ∨ some r.unit_id = selectedUnit)).filter
      (fun r => typeFilter = "all" ∨ r.resource_type = typeFilter)).filter
      (fun r => yearFilter = "all" ∨ jsNumber yearFilter = some r.academic_year))

/-! ## Concrete reference data used by witnesses and counterexamples -/
/-- A database with no rows in any table. -/
def dbEmpty : DB :=
  { subjects := [], academic_years := [], subject_offerings := [], units := [],
    users := [], resources := [] }

/-- A small consistent database: one subject CS101 offered in 2024-2025
with one unit, a student contributor, an admin, a second student, one
live resource r1 and one soft-deleted resource r2, both contributed by
alice. -/
def db0 : DB :=
  { subjects := [{ id := "s1", code := "CS101", name := "Intro to CS" }]
    academic_years := [{ id := "y1", start_year := 2024, end_year := 2025 }]
    subject_offerings :=
      [{ id := "o1", subject_id := "s1", academic_year_id := "y1", faculty_id := "f1" }]
    units := [{ id := "u1", subject_offering_id := "o1", unit_number := 1 }]
    users :=
      [{ id := "alice", role := "student", full_name := "Alice A" },
       { id := "boss", role := "admin", full_name := "Boss B" },
       { id := "mallory", role := "student", full_name := "Mallory M" }]
    resources :=
      [{ id := "r1", subject_id := "s1", subject_offering_id := some "o1",
         unit_id := some "u1", title := "Notes", description := "week one",
         resource_type := "external_link", external_url := some "http://example.org",
         storage_path := none, contributor_id := "alice", is_deleted := false,
         created_at := 10 },
       { id := "r2", subject_id := "s1", subject_offering_id := some "o1",
         unit_id := none, title := "Old notes", description := "stale",
         resource_type := "external_link", external_url := some "http://example.org/old",
         storage_path := none, contributor_id := "alice", is_deleted := true,
         created_at := 20 }] }

/-! ## C7: storage path and sanitization -/
/-- The character class of the spec: [A-Za-z0-9._-]. -/
def specAllowedChar (c : Char) : Prop :=
  ('A' ≤ c ∧ c ≤ 'Z') ∨ ('a' ≤ c ∧ c ≤ 'z') ∨ ('0' ≤ c ∧ c ≤ '9') ∨
  c = '.' ∨ c = '_' ∨ c = '-'

instance (c : Char) : Decidable (specAllowedChar c) := by
  unfold specAllowedChar; infer_instance

/-- Reference data missing for a creation request: no subject row has the
requested code, or no academic-year row has the requested pair, or a unit
number was supplied and no unit row carries it. -/
def refDataMissing (db : DB) (subject_code start_year end_year : String)
    (unit_number : Option String) : Prop :=
  db.subjects.find? (fun s => s.code = subject_code) = none ∨
  db.academic_years.find? (fun ay => some ay.start_year = jsParseInt start_year ∧
    some ay.end_year = jsParseInt end_year) = none ∨
  (jsTruthyStrO unit_number = true ∧
    db.units.find? (fun u => some u.unit_number = jsParseIntO unit_number) = none)

/-- A link-creation body naming a subject code absent from db0. -/
def bodyUnknownSubject : CreateLinkBody :=
  { title := some "T", description := some "D", subject_code := some "XX999",
    start_year := some "2024", end_year := some "2025", unit_number := none,
    external_url := some "http://example.org", resource_type := some "lecture_notes" }

/-! ## C8: client-side filtering on the Browse page -/
/-- The three resources of the spec example. -/
def exR1 : BrowseResource :=
  { course_name := "CS", unit_id := 1, resource_type := "notes", academic_year := 2024 }

def exR2 : BrowseResource :=
  { course_name := "CS", unit_id := 2, resource_type := "notes", academic_year := 2023 }

def exR3 : BrowseResource :=
  { course_name := "EE", unit_id := 3, resource_type := "lab", academic_year := 2024 }

/-- A valid link-creation body for db0 whose client-side resource_type is
the presentation value question_paper. -/
def bodyOkLink : CreateLinkBody :=
  { title := some "T", description := some "D", subject_code := some "CS101",
    start_year := some "2024", end_year := some "2025", unit_number := none,
    external_url := some "http://example.org", resource_type := some "question_paper" }

/-- The row POST /resources inserts for bodyOkLink on db0. -/
def rowLinkCreated : ResourceRow :=
  { id := "r9", subject_id := "s1", subject_offering_id := some "o1",
    unit_id := none, title := "T", description := "D",
    resource_type := "external_link", external_url := some "http://example.org",
    storage_path := none, contributor_id := "alice", is_deleted := false,
    created_at := 42 }

/-! ## C5: the file route applies no MIME or size check -/
/-- A multipart form for db0 whose file part declares MIME image/png. -/
def pngForm (data : List Nat) : CreateFileForm :=
  { title := some "T", description := some "D", subject_code := some "CS101",
    start_year := some "2024", end_year := some "2025", unit_number := none,
    resource_type := some "lecture_notes",
    file := some { filename := "x.png", mimeType := "image/png", data := data } }

/-! ## Theorems -/

/-- The regex character test of the source coincides with the character
class [A-Za-z0-9._-] of the spec. -/
theorem allowedChar_iff (c : Char) :
    ((c.isAlphanum ∨ c = '.' ∨ c = '_' ∨ c = '-') : Prop) ↔ specAllowedChar c := by
  simp [Char.isAlphanum, Char.isAlpha, Char.isDigit, Char.isUpper, Char.isLower,
    specAllowedChar, Char.le_def, UInt32.le_def, Bool.or_eq_true, Bool.and_eq_true,
    decide_eq_true_eq]
  tauto

/-- C7: the storage path is \x7bsubjectId\x7d/\x7bofferingId\x7d/\x7bunitId\x7d/\x7btimestamp\x7d-\x7bsanitizedFilename\x7d
when a unit id was resolved and \x7bsubjectId\x7d/\x7bofferingId\x7d/\x7btimestamp\x7d-\x7bsanitizedFilename\x7d
otherwise; sanitization replaces every character outside [A-Za-z0-9._-]
one-for-one with an underscore, so "my file?!.pdf" becomes
"my_file__.pdf"; and an upload at an occupied path fails instead of
overwriting, whatever the provider outcome. -/
theorem storage_path_spec (subjectId offeringId u filename : String) (ts : Nat)
    (storage : Storage) (data : List Nat) (providerErr : Option String) (hu : u ≠ "") :
    (generateStoragePath subjectId offeringId (some u) ts filename =
       subjectId ++ "/" ++ offeringId ++ "/" ++ u ++ "/" ++ toString ts ++ "-" ++
         sanitizeFilename filename) ∧
    (generateStoragePath subjectId offeringId none ts filename =
       subjectId ++ "/" ++ offeringId ++ "/" ++ toString ts ++ "-" ++
         sanitizeFilename filename) ∧
    ((sanitizeFilename filename).toList =
       filename.toList.map (fun c => if specAllowedChar c then c else '_')) ∧
    ((sanitizeFilename filename).length = filename.length) ∧
    (sanitizeFilename "my file?!.pdf" = "my_file__.pdf") ∧
    (∀ p ∈ storage, p.1 = generateStoragePath subjectId offeringId (some u) ts filename →
       ∃ e, storageUpload storage
         (generateStoragePath subjectId offeringId (some u) ts filename) data providerErr =
           Except.error e) := by
  refine ⟨?_, ?_, ?_, ?_, by decide, ?_⟩
  · simp [generateStoragePath, jsTruthyStrO, hu]
  · simp [generateStoragePath, jsTruthyStrO]
  · simp only [sanitizeFilename]
    cases filename with
    | mk cs =>
      simp only [String.toList]
      induction cs with
      | nil => rfl
      | cons c t ih =>
        simp only [List.map, ih]
        congr 1
        by_cases h : specAllowedChar c
        · rw [if_pos ((allowedChar_iff c).mpr h), if_pos h]
        · rw [if_neg (fun hc => h ((allowedChar_iff c).mp hc)), if_neg h]
  · cases filename with
    | mk cs => simp [sanitizeFilename, String.length]
  · intro p hp hpath
    rcases providerErr with _ | e
    · refine ⟨"The resource already exists", ?_⟩
      simp only [storageUpload]
      rw [if_pos]
      exact List.any_eq_true.mpr ⟨p, hp, by simp [hpath]⟩
    · exact ⟨e, rfl⟩

/-- Witness for C7 at concrete inputs. -/
theorem storage_path_spec_witness :
    generateStoragePath "s1" "o1" (some "u1") 1000 "my file?!.pdf" =
      "s1/o1/u1/1000-my_file__.pdf" ∧
    (∃ e, storageUpload [("s1/o1/u1/1000-my_file__.pdf", [1])]
      (generateStoragePath "s1" "o1" (some "u1") 1000 "my file?!.pdf") [2] none =
        Except.error e) := by
  have h := storage_path_spec "s1" "o1" "u1" "my file?!.pdf" 1000
    [("s1/o1/u1/1000-my_file__.pdf", [1])] [2] none (by decide)
  refine ⟨by decide, ?_⟩
  exact h.2.2.2.2.2 ("s1/o1/u1/1000-my_file__.pdf", [1]) (by decide) (by decide)

/-! ## C1: strict order and early abort of the resolution chain -/
lemma resolveChain_subject_err {db : DB} {sc : String} (sy ey : String)
    (un : Option String) {e : String} (h : resolveSubject db sc = .error e) :
    resolveChain db sc sy ey un = ([Step.subject], .error e) := by
  simp [resolveChain, h]

lemma resolveChain_year_err {db : DB} {sc sy ey : String} (un : Option String)
    {s : SubjectRow} {e : String} (hs : resolveSubject db sc = .ok s)
    (hy : resolveAcademicYear db (jsParseInt sy) (jsParseInt ey) = .error e) :
    resolveChain db sc sy ey un = ([Step.subject, Step.year], .error e) := by
  simp [resolveChain, hs, hy]

lemma resolveChain_offering_err {db : DB} {sc sy ey : String} (un : Option String)
    {s : SubjectRow} {y : String} {e : String} (hs : resolveSubject db sc = .ok s)
    (hy : resolveAcademicYear db (jsParseInt sy) (jsParseInt ey) = .ok y)
    (ho : resolveSubjectOffering db s.id y = .error e) :
    resolveChain db sc sy ey un = ([Step.subject, Step.year, Step.offering], .error e) := by
  simp [resolveChain, hs, hy, ho]

lemma resolveChain_no_unit {db : DB} {sc sy ey : String} {un : Option String}
    {s : SubjectRow} {y : String} {o : SubjectOfferingRow}
    (hs : resolveSubject db sc = .ok s)
    (hy : resolveAcademicYear db (jsParseInt sy) (jsParseInt ey) = .ok y)
    (ho : resolveSubjectOffering db s.id y = .ok o) (hu : jsTruthyStrO un = false) :
    resolveChain db sc sy ey un =
      ([Step.subject, Step.year, Step.offering], .ok ⟨s, y, o, none⟩) := by
  simp [resolveChain, hs, hy, ho, hu]

lemma resolveChain_unit_err {db : DB} {sc sy ey : String} {un : Option String}
    {s : SubjectRow} {y : String} {o : SubjectOfferingRow} {e : String}
    (hs : resolveSubject db sc = .ok s)
    (hy : resolveAcademicYear db (jsParseInt sy) (jsParseInt ey) = .ok y)
    (ho : resolveSubjectOffering db s.id y = .ok o) (hu : jsTruthyStrO un = true)
    (hun : resolveUnit db o.id (jsParseIntO un) = .error e) :
    resolveChain db sc sy ey un =
      ([Step.subject, Step.year, Step.offering, Step.unit], .error e) := by
  simp [resolveChain, hs, hy, ho, hu, hun]

lemma resolveChain_unit_ok {db : DB} {sc sy ey : String} {un : Option String}
    {s : SubjectRow} {y : String} {o : SubjectOfferingRow} {uid : String}
    (hs : resolveSubject db sc = .ok s)
    (hy : resolveAcademicYear db (jsParseInt sy) (jsParseInt ey) = .ok y)
    (ho : resolveSubjectOffering db s.id y = .ok o) (hu : jsTruthyStrO un = true)
    (hun : resolveUnit db o.id (jsParseIntO un) = .ok uid) :
    resolveChain db sc sy ey un =
      ([Step.subject, Step.year, Step.offering, Step.unit], .ok ⟨s, y, o, some uid⟩) := by
  simp [resolveChain, hs, hy, ho, hu, hun]

/-- Exhaustive case analysis of the lookup trace. -/
lemma resolveChain_trace_cases (db : DB) (sc sy ey : String) (un : Option String) :
    (resolveChain db sc sy ey un).1 = [Step.subject] ∨
    (resolveChain db sc sy ey un).1 = [Step.subject, Step.year] ∨
    (resolveChain db sc sy ey un).1 = [Step.subject, Step.year, Step.offering] ∨
    ((resolveChain db sc sy ey un).1 =
        [Step.subject, Step.year, Step.offering, Step.unit] ∧
      jsTruthyStrO un = true) := by
  cases hs : resolveSubject db sc with
  | error e => left; rw [resolveChain_subject_err sy ey un hs]
  | ok s =>
    cases hy : resolveAcademicYear db (jsParseInt sy) (jsParseInt ey) with
    | error e => right; left; rw [resolveChain_year_err un hs hy]
    | ok y =>
      cases ho : resolveSubjectOffering db s.id y with
      | error e => right; right; left; rw [resolveChain_offering_err un hs hy ho]
      | ok o =>
        cases hu : jsTruthyStrO un with
        | false => right; right; left; rw [resolveChain_no_unit hs hy ho hu]
        | true =>
          cases hun : resolveUnit db o.id (jsParseIntO un) with
          | error e =>
            right; right; right
            rw [resolveChain_unit_err hs hy ho hu hun]; exact ⟨rfl, rfl⟩
          | ok uid =>
            right; right; right
            rw [resolveChain_unit_ok hs hy ho hu hun]; exact ⟨rfl, rfl⟩

/-- C1: the chain shared by both creation endpoints performs its lookups
in the strict order subject, year, offering, unit; the unit lookup runs
only when a unit number was supplied (truthy); and the first failing
lookup ends the chain with exactly the lookups so far in its trace, so no
later lookup is attempted. -/
theorem resolution_chain_strict_order (db : DB) (sc sy ey : String) (un : Option String) :
    ((resolveChain db sc sy ey un).1 <+:
       [Step.subject, Step.year, Step.offering, Step.unit]) ∧
    (Step.unit ∈ (resolveChain db sc sy ey un).1 → jsTruthyStrO un = true) ∧
    (∀ e, resolveSubject db sc = .error e →
       resolveChain db sc sy ey un = ([Step.subject], .error e)) ∧
    (∀ s e, resolveSubject db sc = .ok s →
       resolveAcademicYear db (jsParseInt sy) (jsParseInt ey) = .error e →
       resolveChain db sc sy ey un = ([Step.subject, Step.year], .error e)) ∧
    (∀ s y e, resolveSubject db sc = .ok s →
       resolveAcademicYear db (jsParseInt sy) (jsParseInt ey) = .ok y →
       resolveSubjectOffering db s.id y = .error e →
       resolveChain db sc sy ey un =
         ([Step.subject, Step.year, Step.offering], .error e)) ∧
    (∀ s y o, resolveSubject db sc = .ok s →
       resolveAcademicYear db (jsParseInt sy) (jsParseInt ey) = .ok y →
       resolveSubjectOffering db s.id y = .ok o →
       jsTruthyStrO un = false →
       resolveChain db sc sy ey un =
         ([Step.subject, Step.year, Step.offering], .ok ⟨s, y, o, none⟩)) ∧
    (∀ s y o e, resolveSubject db sc = .ok s →
       resolveAcademicYear db (jsParseInt sy) (jsParseInt ey) = .ok y →
       resolveSubjectOffering db s.id y = .ok o →
       jsTruthyStrO un = true →
       resolveUnit db o.id (jsParseIntO un) = .error e →
       resolveChain db sc sy ey un =
         ([Step.subject, Step.year, Step.offering, Step.unit], .error e)) ∧
    (∀ s y o uid, resolveSubject db sc = .ok s →
       resolveAcademicYear db (jsParseInt sy) (jsParseInt ey) = .ok y →
       resolveSubjectOffering db s.id y = .ok o →
       jsTruthyStrO un = true →
       resolveUnit db o.id (jsParseIntO un) = .ok uid →
       resolveChain db sc sy ey un =
         ([Step.subject, Step.year, Step.offering, Step.unit], .ok ⟨s, y, o, some uid⟩)) := by
  refine ⟨?_, ?_, ?_, ?_, ?_, ?_, ?_, ?_⟩
  · rcases resolveChain_trace_cases db sc sy ey un with h | h | h | ⟨h, _⟩
    · rw [h]; exact ⟨[Step.year, Step.offering, Step.unit], rfl⟩
    · rw [h]; exact ⟨[Step.offering, Step.unit], rfl⟩
    · rw [h]; exact ⟨[Step.unit], rfl⟩
    · rw [h]
  · rcases resolveChain_trace_cases db sc sy ey un with h | h | h | ⟨h, hu⟩
    · rw [h]; intro hm; simp at hm
    · rw [h]; intro hm; simp at hm
    · rw [h]; intro hm; simp at hm
    · intro _; exact hu
  · intro e h; exact resolveChain_subject_err sy ey un h
  · intro s e hs hy; exact resolveChain_year_err un hs hy
  · intro s y e hs hy ho; exact resolveChain_offering_err un hs hy ho
  · intro s y o hs hy ho hu
    exact resolveChain_no_unit hs hy ho hu
  · intro s y o e hs hy ho hu hun; exact resolveChain_unit_err hs hy ho hu hun
  · intro s y o uid hs hy ho hu hun; exact resolveChain_unit_ok hs hy ho hu hun

/-- Witness for C1: on db0 all four lookups succeed in order when a unit
number is supplied, and on the empty database the chain stops after the
subject lookup. -/
theorem resolution_chain_strict_order_witness :
    resolveChain db0 "CS101" "2024" "2025" (some "1") =
      ([Step.subject, Step.year, Step.offering, Step.unit],
       .ok ⟨{ id := "s1", code := "CS101", name := "Intro to CS" }, "y1",
            { id := "o1", subject_id := "s1", academic_year_id := "y1",
              faculty_id := "f1" }, some "u1"⟩) ∧
    resolveChain dbEmpty "CS101" "2024" "2025" (some "1") =
      ([Step.subject], .error ("Subject with code CS101 not found")) := by
  constructor
  · exact (resolution_chain_strict_order db0 "CS101" "2024" "2025"
      (some "1")).2.2.2.2.2.2.2 _ _ _ _ rfl rfl rfl (by decide) rfl
  · exact (resolution_chain_strict_order dbEmpty "CS101" "2024" "2025"
      (some "1")).2.2.1 _ rfl

/-! ## C2: transactional rollback of both creation endpoints -/
lemma resolveAcademicYear_ok_mem {db : DB} {a b : Option Int} {y : String}
    (h : resolveAcademicYear db a b = .ok y) :
    ∃ ay ∈ db.academic_years, some ay.start_year = a ∧ some ay.end_year = b := by
  unfold resolveAcademicYear at h
  cases hf : db.academic_years.find?
      (fun ay => some ay.start_year = a ∧ some ay.end_year = b) with
  | none => rw [hf] at h; simp at h
  | some row =>
    have hm := List.mem_of_find?_eq_some hf
    have hp := List.find?_some hf
    simp only [decide_eq_true_eq] at hp
    exact ⟨row, hm, hp.1, hp.2⟩

lemma resolveUnit_ok_mem {db : DB} {oid : String} {n : Option Int} {uid : String}
    (h : resolveUnit db oid n = .ok uid) :
    ∃ u ∈ db.units, u.subject_offering_id = oid ∧ some u.unit_number = n := by
  unfold resolveUnit at h
  cases hf : db.units.find? (fun u => u.subject_offering_id = oid ∧ some u.unit_number = n) with
  | none => rw [hf] at h; simp at h
  | some row =>
    have hm := List.mem_of_find?_eq_some hf
    have hp := List.find?_some hf
    simp only [decide_eq_true_eq] at hp
    exact ⟨row, hm, hp.1, hp.2⟩

lemma resolveSubject_ok_mem {db : DB} {sc : String} {s : SubjectRow}
    (h : resolveSubject db sc = .ok s) : ∃ x ∈ db.subjects, x.code = sc := by
  unfold resolveSubject at h
  cases hf : db.subjects.find? (fun x => x.code = sc) with
  | none => rw [hf] at h; simp at h
  | some row =>
    have hm := List.mem_of_find?_eq_some hf
    have hp := List.find?_some hf
    simp only [decide_eq_true_eq] at hp
    exact ⟨row, hm, hp⟩

/-- A successful chain run entails a successful year lookup and, when a
unit number was supplied, a successful unit lookup, besides a subject row
whose code matched. -/
lemma resolveChain_ok_parts {db : DB} {sc sy ey : String} {un : Option String}
    {r : Resolved} (h : (resolveChain db sc sy ey un).2 = .ok r) :
    resolveSubject db sc = .ok r.subject ∧
    resolveAcademicYear db (jsParseInt sy) (jsParseInt ey) = .ok r.academicYearId ∧
    (jsTruthyStrO un = true →
      ∃ uid, resolveUnit db r.offering.id (jsParseIntO un) = .ok uid) := by
  cases hs : resolveSubject db sc with
  | error e => rw [resolveChain_subject_err sy ey un hs] at h; simp at h
  | ok s =>
    cases hy : resolveAcademicYear db (jsParseInt sy) (jsParseInt ey) with
    | error e => rw [resolveChain_year_err un hs hy] at h; simp at h
    | ok y =>
      cases ho : resolveSubjectOffering db s.id y with
      | error e => rw [resolveChain_offering_err un hs hy ho] at h; simp at h
      | ok o =>
        cases hu : jsTruthyStrO un with
        | false =>
          rw [resolveChain_no_unit hs hy ho hu] at h
          simp only [Except.ok.injEq] at h
          subst h
          exact ⟨rfl, rfl, fun hc => nomatch hc⟩
        | true =>
          cases hun : resolveUnit db o.id (jsParseIntO un) with
          | error e => rw [resolveChain_unit_err hs hy ho hu hun] at h; simp at h
          | ok uid =>
            rw [resolveChain_unit_ok hs hy ho hu hun] at h
            simp only [Except.ok.injEq] at h
            subst h
            exact ⟨rfl, rfl, fun _ => ⟨uid, hun⟩⟩

lemma postResources_chain_err {db : DB} {body : CreateLinkBody}
    {userId newId : String} {now : Nat} {insertErr : Option String} {e : String}
    (hv : linkFieldsPresent body)
    (hc : (resolveChain db (body.subject_code.getD "") (body.start_year.getD "")
        (body.end_year.getD "") body.unit_number).2 = .error e) :
    postResources db body userId newId now insertErr = (db, .badRequest e) := by
  simp [postResources, hv, hc]

lemma postResources_insert_err {db : DB} {body : CreateLinkBody}
    {userId newId : String} {now : Nat} {e : String} {r : Resolved}
    (hv : linkFieldsPresent body)
    (hc : (resolveChain db (body.subject_code.getD "") (body.start_year.getD "")
        (body.end_year.getD "") body.unit_number).2 = .ok r) :
    postResources db body userId newId now (some e) = (db, .badRequest e) := by
  simp [postResources, hv, hc]

lemma postResourcesFile_chain_err {db : DB} {storage : Storage}
    {form : CreateFileForm} {userId newId : String} {now ts : Nat}
    {providerErr insertErr : Option String} {f : UploadedFile} {e : String}
    (hv : fileFieldsPresent form) (hf : form.file = some f) (hn : f.filename ≠ "")
    (hc : (resolveChain db (form.subject_code.getD "") (form.start_year.getD "")
        (form.end_year.getD "") form.unit_number).2 = .error e) :
    postResourcesFile db storage form userId newId now ts providerErr insertErr =
      ((db, storage), .badRequest e) := by
  simp [postResourcesFile, hv, hf, hn, hc]

lemma postResourcesFile_upload_err {db : DB} {storage : Storage}
    {form : CreateFileForm} {userId newId : String} {now ts : Nat}
    {providerErr insertErr : Option String} {f : UploadedFile} {r : Resolved} {e : String}
    (hv : fileFieldsPresent form) (hf : form.file = some f) (hn : f.filename ≠ "")
    (hc : (resolveChain db (form.subject_code.getD "") (form.start_year.getD "")
        (form.end_year.getD "") form.unit_number).2 = .ok r)
    (hup : storageUpload storage
        (generateStoragePath r.subject.id r.offering.id r.unitId ts f.filename)
        f.data providerErr = .error e) :
    postResourcesFile db storage form userId newId now ts providerErr insertErr =
      ((db, storage), .badRequest ("File upload failed: " ++ e)) := by
  simp [postResourcesFile, hv, hf, hn, hc, hup]

lemma postResourcesFile_insert_err {db : DB} {storage : Storage}
    {form : CreateFileForm} {userId newId : String} {now ts : Nat}
    {providerErr : Option String} {f : UploadedFile} {r : Resolved}
    {e : String} {storage2 : Storage}
    (hv : fileFieldsPresent form) (hf : form.file = some f) (hn : f.filename ≠ "")
    (hc : (resolveChain db (form.subject_code.getD "") (form.start_year.getD "")
        (form.end_year.getD "") form.unit_number).2 = .ok r)
    (hup : storageUpload storage
        (generateStoragePath r.subject.id r.offering.id r.unitId ts f.filename)
        f.data providerErr = .ok storage2) :
    postResourcesFile db storage form userId newId now ts providerErr (some e) =
      ((db, storage2), .badRequest e) := by
  simp [postResourcesFile, hv, hf, hn, hc, hup]

/-- Missing reference data forces the chain itself to fail. -/
lemma resolveChain_err_of_refDataMissing {db : DB} {sc sy ey : String}
    {un : Option String} (hmiss : refDataMissing db sc sy ey un) :
    ∃ e, (resolveChain db sc sy ey un).2 = .error e := by
  cases hres : (resolveChain db sc sy ey un).2 with
  | error e => exact ⟨e, rfl⟩
  | ok r =>
    exfalso
    obtain ⟨hs, hy, hu⟩ := resolveChain_ok_parts hres
    rcases hmiss with hm | hm | ⟨ht, hm⟩
    · obtain ⟨x, hx, hcode⟩ := resolveSubject_ok_mem hs
      have := List.find?_eq_none.mp hm x hx
      simp [hcode] at this
    · obtain ⟨ay, hay, h1, h2⟩ := resolveAcademicYear_ok_mem hy
      have := List.find?_eq_none.mp hm ay hay
      simp [h1, h2] at this
    · obtain ⟨uid, hun⟩ := hu ht
      obtain ⟨u, hmem, _, hnum⟩ := resolveUnit_ok_mem hun
      have := List.find?_eq_none.mp hm u hmem
      simp [hnum] at this

/-- C2: after the transaction opens, an entity-resolution miss, a
storage-upload error or an insert error makes either creation endpoint
return the triggering error message with status 400 and leave the
resources table exactly as it was (rollback: no partial Resource row);
in particular a subject code, year pair, or supplied unit number absent
from reference data makes creation fail with 400 and insert nothing. -/
theorem creation_rolls_back_on_failure (db : DB) (body : CreateLinkBody)
    (storage : Storage) (form : CreateFileForm) (userId newId : String)
    (now ts : Nat) (insertErr providerErr : Option String) :
    ((∀ m, (PostResult.badRequest m).status = 400) ∧
     (∀ r, (PostResult.created r).status = 201)) ∧
    (∀ e, linkFieldsPresent body →
      (resolveChain db (body.subject_code.getD "") (body.start_year.getD "")
          (body.end_year.getD "") body.unit_number).2 = .error e →
      postResources db body userId newId now insertErr = (db, .badRequest e)) ∧
    (∀ e r, linkFieldsPresent body →
      (resolveChain db (body.subject_code.getD "") (body.start_year.getD "")
          (body.end_year.getD "") body.unit_number).2 = .ok r →
      postResources db body userId newId now (some e) = (db, .badRequest e)) ∧
    (linkFieldsPresent body →
      refDataMissing db (body.subject_code.getD "") (body.start_year.getD "")
        (body.end_year.getD "") body.unit_number →
      (postResources db body userId newId now insertErr).1 = db ∧
      (postResources db body userId newId now insertErr).2.status = 400) ∧
    (∀ e f, fileFieldsPresent form → form.file = some f → f.filename ≠ "" →
      (resolveChain db (form.subject_code.getD "") (form.start_year.getD "")
          (form.end_year.getD "") form.unit_number).2 = .error e →
      postResourcesFile db storage form userId newId now ts providerErr insertErr =
        ((db, storage), .badRequest e)) ∧
    (∀ e f r, fileFieldsPresent form → form.file = some f → f.filename ≠ "" →
      (resolveChain db (form.subject_code.getD "") (form.start_year.getD "")
          (form.end_year.getD "") form.unit_number).2 = .ok r →
      storageUpload storage
          (generateStoragePath r.subject.id r.offering.id r.unitId ts f.filename)
          f.data providerErr = .error e →
      postResourcesFile db storage form userId newId now ts providerErr insertErr =
        ((db, storage), .badRequest ("File upload failed: " ++ e))) ∧
    (∀ e f r storage2, fileFieldsPresent form → form.file = some f → f.filename ≠ "" →
      (resolveChain db (form.subject_code.getD "") (form.start_year.getD "")
          (form.end_year.getD "") form.unit_number).2 = .ok r →
      storageUpload storage
          (generateStoragePath r.subject.id r.offering.id r.unitId ts f.filename)
          f.data providerErr = .ok storage2 →
      postResourcesFile db storage form userId newId now ts providerErr (some e) =
        ((db, storage2), .badRequest e)) ∧
    (∀ f, fileFieldsPresent form → form.file = some f → f.filename ≠ "" →
      refDataMissing db (form.subject_code.getD "") (form.start_year.getD "")
        (form.end_year.getD "") form.unit_number →
      (postResourcesFile db storage form userId newId now ts providerErr insertErr).1.1 = db ∧
      (postResourcesFile db storage form userId newId now ts providerErr insertErr).2.status
        = 400) := by
  refine ⟨⟨fun _ => rfl, fun _ => rfl⟩, ?_, ?_, ?_, ?_, ?_, ?_, ?_⟩
  · intro e hv hc; exact postResources_chain_err hv hc
  · intro e r hv hc; exact postResources_insert_err hv hc
  · intro hv hmiss
    obtain ⟨e, hc⟩ := resolveChain_err_of_refDataMissing hmiss
    rw [postResources_chain_err hv hc]
    exact ⟨rfl, rfl⟩
  · intro e f hv hf hn hc; exact postResourcesFile_chain_err hv hf hn hc
  · intro e f r hv hf hn hc hup; exact postResourcesFile_upload_err hv hf hn hc hup
  · intro e f r storage2 hv hf hn hc hup
    exact postResourcesFile_insert_err hv hf hn hc hup
  · intro f hv hf hn hmiss
    obtain ⟨e, hc⟩ := resolveChain_err_of_refDataMissing hmiss
    rw [postResourcesFile_chain_err hv hf hn hc]
    exact ⟨rfl, rfl⟩

/-- Witness for C2: on db0, creating a link resource with unknown subject
code XX999 returns 400 with the lookup error and leaves the database
unchanged. -/
theorem creation_rolls_back_on_failure_witness :
    postResources db0 bodyUnknownSubject "alice" "rid1" 99 none =
      (db0, .badRequest ("Subject with code XX999 not found")) := by
  exact (creation_rolls_back_on_failure db0 bodyUnknownSubject []
    { title := none, description := none, subject_code := none, start_year := none,
      end_year := none, unit_number := none, resource_type := none, file := none }
    "alice" "rid1" 99 0 none none).2.1 _ (by decide) rfl

/-! ## C3: the mutation gate and its use by PUT and DELETE -/
/-- C3: canMutate is true exactly when the acting user row carries role
admin or the target resource row records the user as contributor, false
for every other combination (including an absent user row with a
non-owned resource); and PUT and DELETE both reject a caller the gate
denies with 403 Forbidden, leaving the database unchanged. -/
theorem canMutate_owner_or_admin (db : DB) (rid userId : String)
    (title description : Option String) :
    (∀ u, db.users.find? (fun x => x.id = userId) = some u →
      ∀ r, db.resources.find? (fun x => x.id = rid) = some r →
      (canMutate db rid userId = true ↔
        (u.role = "admin" ∨ r.contributor_id = userId))) ∧
    (db.users.find? (fun x => x.id = userId) = none →
      ∀ r, db.resources.find? (fun x => x.id = rid) = some r →
      (canMutate db rid userId = true ↔ r.contributor_id = userId)) ∧
    (canMutate db rid userId = false →
      (jsTruthyStrO title ∨ jsTruthyStrO description) →
      putResource db rid userId title description =
        (db, .forbidden "You do not have permission to update this resource") ∧
      (putResource db rid userId title description).2.status = 403) ∧
    (canMutate db rid userId = false →
      deleteResource db rid userId =
        (db, .forbidden "You do not have permission to delete this resource") ∧
      (deleteResource db rid userId).2.status = 403) := by
  have hgate : ∀ u, db.users.find? (fun x => x.id = userId) = some u →
      isAdmin db userId = (u.role = "admin" : Bool) := by
    intro u hu; simp [isAdmin, hu]
  have howner : ∀ r, db.resources.find? (fun x => x.id = rid) = some r →
      isResourceOwner db rid userId = (r.contributor_id = userId : Bool) := by
    intro r hr; simp [isResourceOwner, hr]
  refine ⟨?_, ?_, ?_, ?_⟩
  · intro u hu r hr
    simp [canMutate, hgate u hu, howner r hr]
  · intro hu r hr
    simp [canMutate, isAdmin, hu, howner r hr]
  · intro hden hval
    have hcond : ¬(isAdmin db userId ∨ isResourceOwner db rid userId) := by
      simp only [canMutate, Bool.or_eq_false_iff] at hden
      simp [hden.1, hden.2]
    have hv2 : ¬(¬jsTruthyStrO title ∧ ¬jsTruthyStrO description) := by
      rcases hval with h | h
      · exact fun hc => hc.1 (by simp [h])
      · exact fun hc => hc.2 (by simp [h])
    constructor
    · simp only [putResource, if_neg hv2, if_pos hcond]
    · simp only [putResource, if_neg hv2, if_pos hcond]; rfl
  · intro hden
    have hcond : ¬(isAdmin db userId ∨ isResourceOwner db rid userId) := by
      simp only [canMutate, Bool.or_eq_false_iff] at hden
      simp [hden.1, hden.2]
    constructor
    · simp only [deleteResource, if_pos hcond]
    · simp only [deleteResource, if_pos hcond]; rfl

/-- Witness for C3 on db0: mallory is neither admin nor contributor of
r1, so the gate denies and both mutations return 403; alice owns r1 and
boss is admin, so the gate allows both. -/
theorem canMutate_owner_or_admin_witness :
    canMutate db0 "r1" "mallory" = false ∧
    (putResource db0 "r1" "mallory" (some "t") none).2.status = 403 ∧
    (deleteResource db0 "r1" "mallory").2.status = 403 ∧
    canMutate db0 "r1" "alice" = true ∧
    canMutate db0 "r1" "boss" = true := by
  refine ⟨by decide, ?_, ?_, ?_, ?_⟩
  · exact ((canMutate_owner_or_admin db0 "r1" "mallory" (some "t") none).2.2.1
      (by decide) (Or.inl (by decide))).2
  · exact ((canMutate_owner_or_admin db0 "r1" "mallory" (some "t") none).2.2.2
      (by decide)).2
  · exact (canMutate_owner_or_admin db0 "r1" "alice" none none).1
      { id := "alice", role := "student", full_name := "Alice A" } rfl
      ((db0.resources).get ⟨0, by decide⟩) rfl |>.mpr (Or.inr rfl)
  · exact (canMutate_owner_or_admin db0 "r1" "boss" none none).1
      { id := "boss", role := "admin", full_name := "Boss B" } rfl
      ((db0.resources).get ⟨0, by decide⟩) rfl |>.mpr (Or.inl rfl)

/-- Shared by C3-style reasoning: a denied gate yields 403 from both
handlers (when the PUT validation passes). -/
lemma canMutate_amended_forbidden (db : DB) (rid uid : String)
    (title description : Option String) (hden : canMutate db rid uid = false)
    (hval : jsTruthyStrO title ∨ jsTruthyStrO description) :
    (putResource db rid uid title description).2.status = 403 ∧
    (deleteResource db rid uid).2.status = 403 := by
  have hcond : ¬(isAdmin db uid ∨ isResourceOwner db rid uid) := by
    simp only [canMutate, Bool.or_eq_false_iff] at hden
    simp [hden.1, hden.2]
  have hv2 : ¬(¬jsTruthyStrO title ∧ ¬jsTruthyStrO description) := by
    rcases hval with h | h
    · exact fun hc => hc.1 (by simp [h])
    · exact fun hc => hc.2 (by simp [h])
  constructor
  · simp only [putResource, if_neg hv2, if_pos hcond]; rfl
  · simp only [deleteResource, if_pos hcond]; rfl

/-! ## C4: status codes of PUT and DELETE on absent or deleted ids -/
/-- Counterexample to C4: on db0, alice (the contributor) PUTs the
already-soft-deleted resource r2 and the handler answers 200 with the
updated row, not 404; and mallory, neither admin nor owner, PUTs or
DELETEs the nonexistent id ghost and receives 403, not 404, because the
permission check precedes the existence check. -/
theorem put_delete_notfound_counterexample :
    (putResource db0 "r2" "alice" (some "fresh") none).2.status = 200 ∧
    (putResource db0 "r2" "alice" (some "fresh") none).2 ≠
      MutResult.notFound "Resource not found" ∧
    (putResource db0 "ghost" "mallory" (some "t") none).2.status = 403 ∧
    (deleteResource db0 "ghost" "mallory").2.status = 403 := by
  decide

/-- C4 as amended: a PUT or DELETE on a nonexistent id yields 404 when
the caller passes the permission gate (an admin) and 403 when the gate
denies them (the permission check runs first); a PUT on a soft-deleted
resource by an authorized caller succeeds with 200; Forbidden applies
exactly to callers the gate denies. -/
theorem put_delete_status_amended (db : DB) (rid uid : String)
    (title description : Option String) :
    (db.resources.find? (fun r => r.id = rid) = none →
      isAdmin db uid = true →
      (jsTruthyStrO title ∨ jsTruthyStrO description) →
      putResource db rid uid title description = (db, .notFound "Resource not found") ∧
      deleteResource db rid uid = (db, .notFound "Resource not found")) ∧
    (db.resources.find? (fun r => r.id = rid) = none →
      isAdmin db uid = false →
      (jsTruthyStrO title ∨ jsTruthyStrO description) →
      (putResource db rid uid title description).2.status = 403 ∧
      (deleteResource db rid uid).2.status = 403) ∧
    (∀ r, db.resources.find? (fun x => x.id = rid) = some r →
      r.is_deleted = true →
      canMutate db rid uid = true →
      (jsTruthyStrO title ∨ jsTruthyStrO description) →
      (putResource db rid uid title description).2.status = 200) ∧
    (canMutate db rid uid = false →
      (jsTruthyStrO title ∨ jsTruthyStrO description) →
      (putResource db rid uid title description).2.status = 403 ∧
      (deleteResource db rid uid).2.status = 403) := by
  refine ⟨?_, ?_, ?_, ?_⟩
  · intro hnone hadmin hval
    have hv2 : ¬(¬jsTruthyStrO title ∧ ¬jsTruthyStrO description) := by
      rcases hval with h | h
      · exact fun hc => hc.1 (by simp [h])
      · exact fun hc => hc.2 (by simp [h])
    have hpass : isAdmin db uid ∨ isResourceOwner db rid uid := Or.inl (by simp [hadmin])
    constructor
    · simp only [putResource, if_neg hv2, if_neg (not_not_intro hpass), hnone]
    · simp only [deleteResource, if_neg (not_not_intro hpass), hnone]
  · intro hnone hadmin hval
    have hown : isResourceOwner db rid uid = false := by
      simp [isResourceOwner, hnone]
    have hden : canMutate db rid uid = false := by
      simp [canMutate, hadmin, hown]
    exact (canMutate_amended_forbidden db rid uid title description hden hval)
  · intro r hr hdel hcan hval
    have hv2 : ¬(¬jsTruthyStrO title ∧ ¬jsTruthyStrO description) := by
      rcases hval with h | h
      · exact fun hc => hc.1 (by simp [h])
      · exact fun hc => hc.2 (by simp [h])
    have hcond : isAdmin db uid ∨ isResourceOwner db rid uid := by
      simp only [canMutate, Bool.or_eq_true] at hcan
      rcases hcan with h | h
      · exact Or.inl (by simp [h])
      · exact Or.inr (by simp [h])
    simp only [putResource, if_neg hv2, if_neg (not_not_intro hcond), hr]
    rfl
  · intro hden hval
    exact canMutate_amended_forbidden db rid uid title description hden hval

/-- Witness for C4 amended: boss (admin) receives 404 for the
nonexistent id ghost, and alice receives 200 updating soft-deleted r2. -/
theorem put_delete_status_amended_witness :
    putResource db0 "ghost" "boss" (some "t") none =
      (db0, .notFound "Resource not found") ∧
    (putResource db0 "r2" "alice" (some "fresh") none).2.status = 200 := by
  constructor
  · exact ((put_delete_status_amended db0 "ghost" "boss" (some "t") none).1
      rfl (by decide) (Or.inl (by decide))).1
  · exact (put_delete_status_amended db0 "r2" "alice" (some "fresh") none).2.2.1
      { id := "r2", subject_id := "s1", subject_offering_id := some "o1",
        unit_id := none, title := "Old notes", description := "stale",
        resource_type := "external_link",
        external_url := some "http://example.org/old", storage_path := none,
        contributor_id := "alice", is_deleted := true, created_at := 20 }
      rfl rfl (by decide) (Or.inl (by decide))

/-! ## C6: GET /resources and GET /resources/latest -/
/-- Membership in the query result: exactly the joins of the non-deleted
resource rows. -/
lemma mem_getResources (db : DB) (j : JoinedRow) :
    j ∈ getResources db ↔
      ∃ r ∈ db.resources, r.is_deleted = false ∧ joinRow db r = some j := by
  unfold getResources
  rw [List.mem_insertionSort, List.mem_filterMap]
  constructor
  · rintro ⟨r, hr, hj⟩
    rw [List.mem_filter] at hr
    exact ⟨r, hr.1, by simpa using hr.2, hj⟩
  · rintro ⟨r, hr, hnd, hj⟩
    exact ⟨r, List.mem_filter.mpr ⟨hr, by simpa using hnd⟩, hj⟩

/-- C6: the resource list query returns exactly the non-deleted rows
joined with subject, offering, year, unit and contributor name, sorted by
creation time descending; the latest endpoint is the same list cut to its
first 3 rows; under referential integrity every non-deleted resource
appears; and everything either endpoint emits stems from a non-deleted
row, so a soft-deleted resource never appears. -/
theorem get_resources_spec (db : DB) :
    List.Sorted createdDesc (getResources db) ∧
    getLatestResources db = (getResources db).take 3 ∧
    (∀ j, j ∈ getResources db ↔
      ∃ r ∈ db.resources, r.is_deleted = false ∧ joinRow db r = some j) ∧
    ((∀ r ∈ db.resources,
        (∃ s ∈ db.subjects, s.id = r.subject_id) ∧
        (∃ u ∈ db.users, u.id = r.contributor_id)) →
      ∀ r ∈ db.resources, r.is_deleted = false →
        ∃ j ∈ getResources db, joinRow db r = some j) ∧
    (∀ j ∈ getLatestResources db,
      ∃ r ∈ db.resources, r.is_deleted = false ∧ joinRow db r = some j) := by
  refine ⟨?_, rfl, mem_getResources db, ?_, ?_⟩
  · unfold getResources
    exact List.sorted_insertionSort createdDesc _
  · intro hri r hmem hnd
    obtain ⟨⟨srow, hsmem, hsid⟩, ⟨urow, humem, huid⟩⟩ := hri r hmem
    cases hf1 : db.subjects.find? (fun x => x.id = r.subject_id) with
    | none => exact absurd (List.find?_eq_none.mp hf1 srow hsmem) (by simp [hsid])
    | some srow2 =>
      cases hf2 : db.users.find? (fun x => x.id = r.contributor_id) with
      | none => exact absurd (List.find?_eq_none.mp hf2 urow humem) (by simp [huid])
      | some urow2 =>
        have hj : ∃ j, joinRow db r = some j := by
          unfold joinRow
          rw [hf1, hf2]
          exact ⟨_, rfl⟩
        obtain ⟨j, hj⟩ := hj
        exact ⟨j, (mem_getResources db j).mpr ⟨r, hmem, hnd, hj⟩, hj⟩
  · intro j hj
    exact (mem_getResources db j).mp (List.mem_of_mem_take hj)

/-- Witness for C6: on db0, the joined row of the live resource r1 is in
GET /resources output, and the output is creation-time sorted. -/
theorem get_resources_spec_witness :
    ({ id := "r1", title := "Notes", description := "week one",
       resource_type := "external_link", external_url := some "http://example.org",
       created_at := 10, subject_code := "CS101", subject_name := "Intro to CS",
       start_year := some 2024, end_year := some 2025, unit_number := some 1,
       contributor_name := "Alice A" } : JoinedRow) ∈ getResources db0 ∧
    List.Sorted createdDesc (getResources db0) := by
  constructor
  · exact ((get_resources_spec db0).2.2.1 _).mpr
      ⟨{ id := "r1", subject_id := "s1", subject_offering_id := some "o1",
         unit_id := some "u1", title := "Notes", description := "week one",
         resource_type := "external_link", external_url := some "http://example.org",
         storage_path := none, contributor_id := "alice", is_deleted := false,
         created_at := 10 }, by decide, rfl, rfl⟩
  · exact (get_resources_spec db0).1

/-- C8: a resource is in the filtered result iff it is in the fetched
list and matches every active filter, where an empty course selection, an
absent unit selection and a type or year value of "all" pass every
resource; with no active filter the list is returned whole; and on the
spec example selecting course CS keeps exactly the first two resources
while additionally selecting year 2024 keeps exactly the first. -/
theorem browse_filter_conjunction :
    (∀ (rs : List BrowseResource) (c : String) (u : Option Int) (t y : String)
       (r : BrowseResource),
      r ∈ filteredResources rs c u t y ↔
        r ∈ rs ∧ (jsTruthyStr c = false ∨ r.course_name = c) ∧
        (jsTruthyIntO u = false ∨ some r.unit_id = u) ∧
        (t = "all" ∨ r.resource_type = t) ∧
        (y = "all" ∨ jsNumber y = some r.academic_year)) ∧
    (∀ rs : List BrowseResource, filteredResources rs "" none "all" "all" = rs) ∧
    filteredResources [exR1, exR2, exR3] "CS" none "all" "all" = [exR1, exR2] ∧
    filteredResources [exR1, exR2, exR3] "CS" none "all" "2024" = [exR1] := by
  refine ⟨?_, ?_, by decide, by decide⟩
  · intro rs c u t y r
    simp only [filteredResources, List.mem_filter, decide_eq_true_eq]
    constructor
    · rintro ⟨⟨⟨⟨hm, h1⟩, h2⟩, h3⟩, h4⟩
      refine ⟨hm, ?_, ?_, h3, h4⟩
      · rcases h1 with h | h
        · exact Or.inl (by simpa using h)
        · exact Or.inr h
      · rcases h2 with h | h
        · exact Or.inl (by simpa using h)
        · exact Or.inr h
    · rintro ⟨hm, h1, h2, h3, h4⟩
      refine ⟨⟨⟨⟨hm, ?_⟩, ?_⟩, h3⟩, h4⟩
      · rcases h1 with h | h
        · exact Or.inl (by simpa using h)
        · exact Or.inr h
      · rcases h2 with h | h
        · exact Or.inl (by simpa using h)
        · exact Or.inr h
  · intro rs
    induction rs with
    | nil => rfl
    | cons a l ih =>
      simp only [filteredResources, List.filter] at ih ⊢
      simp [ih, jsTruthyStr, jsTruthyIntO]

/-! ## C9: the identity-resolving middleware -/
/-- C9: a missing Authorization header or one without the Bearer prefix
yields 401 without contacting the provider; a provider error, a thrown
verification call, or a verification yielding no user yields 401; on
success the middleware attaches id, email and role, the role defaulting
to student when the provider supplies none. -/
theorem auth_middleware_spec (h : String) (getUser : String → ProviderResult) :
    (∀ g : String → ProviderResult,
      authMiddleware none g = (false, .unauthorized "Missing token")) ∧
    (jsStartsWith h "Bearer " = false →
      authMiddleware (some h) getUser = (false, .unauthorized "Missing token")) ∧
    (∀ m, jsStartsWith h "Bearer " = true →
      getUser (jsIndex1 (jsSplitSpace h)) = .thrown m →
      authMiddleware (some h) getUser = (true, .unauthorized "Invalid or missing token")) ∧
    (∀ e u, jsStartsWith h "Bearer " = true →
      getUser (jsIndex1 (jsSplitSpace h)) = .result (some e) u →
      authMiddleware (some h) getUser = (true, .unauthorized "Invalid token")) ∧
    (jsStartsWith h "Bearer " = true →
      getUser (jsIndex1 (jsSplitSpace h)) = .result none none →
      authMiddleware (some h) getUser = (true, .unauthorized "Invalid token")) ∧
    (∀ pu, jsStartsWith h "Bearer " = true →
      getUser (jsIndex1 (jsSplitSpace h)) = .result none (some pu) →
      authMiddleware (some h) getUser =
        (true, .success { id := pu.id, email := pu.email,
                          role := jsOrStr pu.role "student" })) ∧
    (∀ pu : ProviderUser, pu.role = none → jsOrStr pu.role "student" = "student") := by
  refine ⟨fun g => rfl, ?_, ?_, ?_, ?_, ?_, ?_⟩
  · intro hb; simp [authMiddleware, hb]
  · intro m hb hg; simp [authMiddleware, hb, hg]
  · intro e u hb hg; simp [authMiddleware, hb, hg]
  · intro hb hg; simp [authMiddleware, hb, hg]
  · intro pu hb hg; simp [authMiddleware, hb, hg]
  · intro pu hr; simp [jsOrStr, hr]

/-- Witness for C9 at a concrete header and provider: a well-formed
Bearer token verifies to a role-less user and the middleware attaches
role student; a malformed header is rejected without a provider call. -/
theorem auth_middleware_spec_witness :
    authMiddleware (some "Bearer tok123")
        (fun t => if t = "tok123"
          then .result none (some { id := "u9", email := "u9@example.org", role := none })
          else .thrown "network") =
      (true, .success { id := "u9", email := "u9@example.org", role := "student" }) ∧
    authMiddleware (some "Token tok123")
        (fun t => if t = "tok123"
          then .result none (some { id := "u9", email := "u9@example.org", role := none })
          else .thrown "network") =
      (false, .unauthorized "Missing token") := by
  constructor
  · have := (auth_middleware_spec "Bearer tok123"
      (fun t => if t = "tok123"
        then .result none (some { id := "u9", email := "u9@example.org", role := none })
        else .thrown "network")).2.2.2.2.2.1
      { id := "u9", email := "u9@example.org", role := none } (by decide) (by decide)
    exact this
  · exact (auth_middleware_spec "Token tok123"
      (fun t => if t = "tok123"
        then .result none (some { id := "u9", email := "u9@example.org", role := none })
        else .thrown "network")).2.1 (by decide)

/-! ## C10: the stored resource kind is a server-side constant -/
lemma postResources_success {db : DB} {body : CreateLinkBody}
    {userId newId : String} {now : Nat} {r : Resolved}
    (hv : linkFieldsPresent body)
    (hc : (resolveChain db (body.subject_code.getD "") (body.start_year.getD "")
        (body.end_year.getD "") body.unit_number).2 = .ok r) :
    postResources db body userId newId now none =
      ({ db with resources := db.resources ++
          [{ id := newId, subject_id := r.subject.id,
             subject_offering_id := some r.offering.id, unit_id := r.unitId,
             title := body.title.getD "", description := body.description.getD "",
             resource_type := "external_link", external_url := body.external_url,
             storage_path := none, contributor_id := userId, is_deleted := false,
             created_at := now }] },
       .created { id := newId, subject_id := r.subject.id,
                  subject_offering_id := some r.offering.id, unit_id := r.unitId,
                  title := body.title.getD "", description := body.description.getD "",
                  resource_type := "external_link", external_url := body.external_url,
                  storage_path := none, contributor_id := userId, is_deleted := false,
                  created_at := now }) := by
  simp [postResources, hv, hc]

lemma postResources_invalid {db : DB} {body : CreateLinkBody}
    {userId newId : String} {now : Nat} {insertErr : Option String}
    (hv : ¬ linkFieldsPresent body) :
    postResources db body userId newId now insertErr =
      (db, .badRequest "Missing required fields: title, description, subject_code, start_year, end_year, external_url") := by
  simp [postResources, hv]

lemma postResourcesFile_success {db : DB} {storage : Storage}
    {form : CreateFileForm} {userId newId : String} {now ts : Nat}
    {providerErr : Option String} {f : UploadedFile} {r : Resolved} {storage2 : Storage}
    (hv : fileFieldsPresent form) (hf : form.file = some f) (hn : f.filename ≠ "")
    (hc : (resolveChain db (form.subject_code.getD "") (form.start_year.getD "")
        (form.end_year.getD "") form.unit_number).2 = .ok r)
    (hup : storageUpload storage
        (generateStoragePath r.subject.id r.offering.id r.unitId ts f.filename)
        f.data providerErr = .ok storage2) :
    postResourcesFile db storage form userId newId now ts providerErr none =
      (({ db with resources := db.resources ++
          [{ id := newId, subject_id := r.subject.id,
             subject_offering_id := some r.offering.id, unit_id := r.unitId,
             title := form.title.getD "", description := form.description.getD "",
             resource_type := "file", external_url := none,
             storage_path := some (generateStoragePath r.subject.id r.offering.id
               r.unitId ts f.filename),
             contributor_id := userId, is_deleted := false, created_at := now }] },
        storage2),
       .created { id := newId, subject_id := r.subject.id,
                  subject_offering_id := some r.offering.id, unit_id := r.unitId,
                  title := form.title.getD "", description := form.description.getD "",
                  resource_type := "file", external_url := none,
                  storage_path := some (generateStoragePath r.subject.id r.offering.id
                    r.unitId ts f.filename),
                  contributor_id := userId, is_deleted := false, created_at := now }) := by
  simp [postResourcesFile, hv, hf, hn, hc, hup]

lemma postResourcesFile_invalid {db : DB} {storage : Storage}
    {form : CreateFileForm} {userId newId : String} {now ts : Nat}
    {providerErr insertErr : Option String} (hv : ¬ fileFieldsPresent form) :
    postResourcesFile db storage form userId newId now ts providerErr insertErr =
      ((db, storage), .badRequest "Missing required fields: title, description, subject_code, start_year, end_year") := by
  simp [postResourcesFile, hv]

lemma postResourcesFile_nofile {db : DB} {storage : Storage}
    {form : CreateFileForm} {userId newId : String} {now ts : Nat}
    {providerErr insertErr : Option String} (hv : fileFieldsPresent form)
    (hf : form.file = none) :
    postResourcesFile db storage form userId newId now ts providerErr insertErr =
      ((db, storage), .badRequest "No file uploaded") := by
  simp [postResourcesFile, hv, hf]

lemma postResourcesFile_emptyname {db : DB} {storage : Storage}
    {form : CreateFileForm} {userId newId : String} {now ts : Nat}
    {providerErr insertErr : Option String} {f : UploadedFile}
    (hv : fileFieldsPresent form) (hf : form.file = some f)
    (hn : f.filename = "") :
    postResourcesFile db storage form userId newId now ts providerErr insertErr =
      ((db, storage), .badRequest "No file uploaded") := by
  simp [postResourcesFile, hv, hf, hn]

/-- C10: every row POST /resources creates carries resource_type
external_link and every row POST /resources/file creates carries
resource_type file, and neither handler reads the client-supplied
resource_type field: its value cannot change the outcome. -/
theorem created_resource_type_constant :
    (∀ (db : DB) (body : CreateLinkBody) (uid nid : String) (now : Nat)
       (ierr : Option String) (db2 : DB) (row : ResourceRow),
      postResources db body uid nid now ierr = (db2, .created row) →
      row.resource_type = "external_link" ∧
        db2.resources = db.resources ++ [row]) ∧
    (∀ (db : DB) (body : CreateLinkBody) (uid nid : String) (now : Nat)
       (ierr : Option String) (rt rt2 : Option String),
      postResources db { body with resource_type := rt } uid nid now ierr =
        postResources db { body with resource_type := rt2 } uid nid now ierr) ∧
    (∀ (db : DB) (storage : Storage) (form : CreateFileForm) (uid nid : String)
       (now ts : Nat) (perr ierr : Option String) (out : DB × Storage) (row : ResourceRow),
      postResourcesFile db storage form uid nid now ts perr ierr = (out, .created row) →
      row.resource_type = "file") ∧
    (∀ (db : DB) (storage : Storage) (form : CreateFileForm) (uid nid : String)
       (now ts : Nat) (perr ierr : Option String) (rt rt2 : Option String),
      postResourcesFile db storage { form with resource_type := rt } uid nid now ts perr ierr =
        postResourcesFile db storage { form with resource_type := rt2 } uid nid now ts
          perr ierr) := by
  refine ⟨?_, ?_, ?_, ?_⟩
  · intro db body uid nid now ierr db2 row h
    by_cases hv : linkFieldsPresent body
    · cases hc : (resolveChain db (body.subject_code.getD "") (body.start_year.getD "")
          (body.end_year.getD "") body.unit_number).2 with
      | error e =>
        rw [postResources_chain_err hv hc] at h
        simp at h
      | ok r =>
        cases ierr with
        | some e =>
          rw [postResources_insert_err hv hc] at h
          simp at h
        | none =>
          rw [postResources_success hv hc] at h
          injection h with h1 h2
          injection h2 with h3
          subst h1
          subst h3
          exact ⟨rfl, rfl⟩
    · rw [postResources_invalid hv] at h
      simp at h
  · intro db body uid nid now ierr rt rt2
    cases body
    rfl
  · intro db storage form uid nid now ts perr ierr out row h
    by_cases hv : fileFieldsPresent form
    · cases hf : form.file with
      | none =>
        rw [postResourcesFile_nofile hv hf] at h
        simp at h
      | some f =>
        by_cases hn : f.filename = ""
        · rw [postResourcesFile_emptyname hv hf hn] at h
          simp at h
        · cases hc : (resolveChain db (form.subject_code.getD "") (form.start_year.getD "")
              (form.end_year.getD "") form.unit_number).2 with
          | error e =>
            rw [postResourcesFile_chain_err hv hf hn hc] at h
            simp at h
          | ok r =>
            cases hup : storageUpload storage
                (generateStoragePath r.subject.id r.offering.id r.unitId ts f.filename)
                f.data perr with
            | error e =>
              rw [postResourcesFile_upload_err hv hf hn hc hup] at h
              simp at h
            | ok storage2 =>
              cases ierr with
              | some e =>
                rw [postResourcesFile_insert_err hv hf hn hc hup] at h
                simp at h
              | none =>
                rw [postResourcesFile_success hv hf hn hc hup] at h
                injection h with h1 h2
                injection h2 with h3
                subst h3
                rfl
    · rw [postResourcesFile_invalid hv] at h
      simp at h
  · intro db storage form uid nid now ts perr ierr rt rt2
    cases form
    rfl

/-- Witness for C10: the concrete creation on db0 carries the client
value question_paper yet the inserted row has resource_type
external_link. -/
theorem created_resource_type_constant_witness :
    postResources db0 bodyOkLink "alice" "r9" 42 none =
      ({ db0 with resources := db0.resources ++ [rowLinkCreated] },
       .created rowLinkCreated) ∧
    (rowLinkCreated.resource_type = "external_link" ∧
      ({ db0 with resources := db0.resources ++ [rowLinkCreated] } : DB).resources =
        db0.resources ++ [rowLinkCreated]) :=
  ⟨by decide,
   created_resource_type_constant.1 db0 bodyOkLink "alice" "r9" 42 none
     { db0 with resources := db0.resources ++ [rowLinkCreated] } rowLinkCreated
     (by decide)⟩

/-- C5 as the code behaves: the multer collaborator would reject a
non-PDF MIME type and caps payloads at 10 MiB, but the Busboy route
POST /resources/file applies neither check: an image/png upload of any
size reaches entity resolution and is inserted with status 201. -/
theorem file_upload_accepts_non_pdf :
    multerFileFilter "image/png" = .error "Only PDF files are allowed" ∧
    multerFileSizeLimit = 10485760 ∧
    (∀ d : List Nat,
      (postResourcesFile db0 [] (pngForm d) "alice" "rpng" 50 1000 none none).2.status
        = 201) ∧
    (postResourcesFile db0 [] (pngForm [1, 2, 3]) "alice" "rpng" 50 1000
        none none).1.1.resources.length = db0.resources.length + 1 := by
  refine ⟨rfl, rfl, ?_, by decide⟩
  intro d
  have hv : fileFieldsPresent (pngForm d) := ⟨rfl, rfl, rfl, rfl, rfl⟩
  have hf : (pngForm d).file =
      some { filename := "x.png", mimeType := "image/png", data := d } := rfl
  have hn : ("x.png" : String) ≠ "" := by decide
  have hc : (resolveChain db0 ((pngForm d).subject_code.getD "")
      ((pngForm d).start_year.getD "") ((pngForm d).end_year.getD "")
      (pngForm d).unit_number).2 =
      .ok ⟨{ id := "s1", code := "CS101", name := "Intro to CS" }, "y1",
           { id := "o1", subject_id := "s1", academic_year_id := "y1",
             faculty_id := "f1" }, none⟩ := rfl
  have hup : storageUpload []
      (generateStoragePath "s1" "o1" none 1000 "x.png") d none =
      .ok [(generateStoragePath "s1" "o1" none 1000 "x.png", d)] := by
    simp [storageUpload]
  rw [postResourcesFile_success hv hf hn hc hup]
  rfl

end ARH

